import Mathlib

/-!
Verification of the catalog service layer of the streaming backend
(`app/services/movie_service.py`): movie and genre CRUD, filtered and
paginated listing, and the all-or-nothing genre-association writes.

The service operates on an ORM session over a relational store.  We embed
the store as an explicit record of tables and the session as a pair of
database states (the committed state and the pending, in-transaction
state); `commit` publishes the pending state and `rollback` discards it,
which is exactly the transaction discipline the Python code relies on via
`db.commit()` and `db.rollback()`.
-/

namespace Catalog

/-- Modelled from the spec: the Movie record of `app/models/movie.py` (the
models module is not in `src/`).  Fields are the ones the spec's data model
lists and the service reads or writes: descriptive fields, media URLs,
lifecycle status, boolean flags, view counter and creation timestamp.  The
creation timestamp is a logical clock value assigned at insertion. -/
structure Movie where
  id : Nat
  title : String
  description : String
  duration : Nat
  release_year : Nat
  director : String
  cast : String
  rating : String
  language : String
  country : String
  poster_url : String
  backdrop_url : String
  trailer_url : String
  status : String
  is_featured : Bool
  is_trending : Bool
  view_count : Nat
  created_at : Nat
deriving Repr, DecidableEq

/-- Modelled from the spec: the Genre record — unique id, name and slug. -/
structure Genre where
  id : Nat
  name : String
  slug : String
deriving Repr, DecidableEq

/-- Modelled from the spec: a MovieGenre association row pairing a movie id
with a genre id. -/
structure MovieGenre where
  movie_id : Nat
  genre_id : Nat
deriving Repr, DecidableEq

/-- The database state: the three tables, the id counters used when rows
are inserted, and a logical clock supplying creation timestamps. -/
structure DB where
  movies : List Movie
  genres : List Genre
  movie_genres : List MovieGenre
  next_movie_id : Nat
  next_genre_id : Nat
  clock : Nat
deriving Repr, DecidableEq

/-- Modelled from the spec: the ORM session.  `committed` is the state the
store last committed; `pending` accumulates the in-transaction writes.
Queries read `pending` (the ORM autoflushes), `commit` publishes it and
`rollback` resets it to `committed`. -/
structure Session where
  committed : DB
  pending : DB
deriving Repr, DecidableEq

def Session.commit (s : Session) : Session := ⟨s.pending, s.pending⟩

def Session.rollback (s : Session) : Session := ⟨s.committed, s.committed⟩

/-- An HTTPException as raised by the service: a status code and a detail
string. -/
structure HTTPErr where
  status_code : Nat
  detail : String
deriving Repr, DecidableEq

/-- `HTTPException(status_code=404, detail=f"Movie with id {movie_id} not found")` -/
def movieNotFound (movie_id : Nat) : HTTPErr :=
  ⟨404, "Movie with id " ++ toString movie_id ++ " not found"⟩

/-- `HTTPException(status_code=400, detail=f"Genre with id {genre_id} not found")`
raised by the genre-validation loops of `create_movie` and `update_movie`. -/
def genreNotFoundBad (genre_id : Nat) : HTTPErr :=
  ⟨400, "Genre with id " ++ toString genre_id ++ " not found"⟩

/-- `HTTPException(status_code=404, detail=f"Genre with id {genre_id} not found")`
raised by `get_genre_by_id`. -/
def genreNotFound (genre_id : Nat) : HTTPErr :=
  ⟨404, "Genre with id " ++ toString genre_id ++ " not found"⟩

/-- `HTTPException(status_code=404, detail=f"Genre with slug '{slug}' not found")`
raised by `get_genre_by_slug`. -/
def genreSlugNotFound (slug : String) : HTTPErr :=
  ⟨404, "Genre with slug '" ++ slug ++ "' not found"⟩

/-- `HTTPException(status_code=400, detail="Genre with this name or slug already exists")` -/
def genreDuplicate : HTTPErr :=
  ⟨400, "Genre with this name or slug already exists"⟩

/-- `db.query(Genre).filter(Genre.id == genre_id).first()` is some row. -/
def genreExists (db : DB) (genre_id : Nat) : Bool :=
  (db.genres.find? (fun g => g.id == genre_id)).isSome

/-- `db.query(Movie).filter(Movie.id == movie_id).first()` is some row. -/
def movieExists (db : DB) (movie_id : Nat) : Bool :=
  (db.movies.find? (fun m => m.id == movie_id)).isSome

/-- `db.query(Genre).filter(Genre.slug == slug).first()` is some row. -/
def genreSlugExists (db : DB) (slug : String) : Bool :=
  (db.genres.find? (fun g => g.slug == slug)).isSome

/-! ## Genre service (`GenreService`) -/

/-- `GenreService.get_genre_by_id`: return the genre or raise 404. -/
def get_genre_by_id (genre_id : Nat) (db : DB) : Except HTTPErr Genre :=
  match db.genres.find? (fun g => g.id == genre_id) with
  | some g => .ok g
  | none => .error (genreNotFound genre_id)

/-- `GenreService.get_genre_by_slug`: return the genre or raise 404. -/
def get_genre_by_slug (slug : String) (db : DB) : Except HTTPErr Genre :=
  match db.genres.find? (fun g => g.slug == slug) with
  | some g => .ok g
  | none => .error (genreSlugNotFound slug)

/-- `GenreService.create_genre`: reject when a genre with the same name or
the same slug exists, otherwise insert the new row and commit. -/
def create_genre (name slug : String) (s : Session) : Except HTTPErr Genre × Session :=
  match s.pending.genres.find? (fun g => g.name == name || g.slug == slug) with
  | some _ => (.error genreDuplicate, s)
  | none =>
    let g : Genre := ⟨s.pending.next_genre_id, name, slug⟩
    let s1 : Session :=
      ⟨s.committed,
       { s.pending with
           genres := s.pending.genres ++ [g],
           next_genre_id := s.pending.next_genre_id + 1 }⟩
    (.ok g, s1.commit)

/-- `GenreService.delete_genre`: fetch by id (404 on a miss), delete, commit. -/
def delete_genre (genre_id : Nat) (s : Session) : Except HTTPErr Unit × Session :=
  match get_genre_by_id genre_id s.pending with
  | .error e => (.error e, s)
  | .ok _ =>
    let s1 : Session :=
      ⟨s.committed,
       { s.pending with genres := s.pending.genres.filter (fun g => !(g.id == genre_id)) }⟩
    (.ok (), s1.commit)

/-! ## Movie service (`MovieService`) -/

/-- Try a predicate on every suffix of the text: how a `%` wildcard
consumes zero or more characters. -/
def likeStar (f : List Char → Bool) : List Char → Bool
  | [] => f []
  | c :: cs => f (c :: cs) || likeStar f cs

/-- SQL `LIKE` pattern matching on character lists: `%` matches any
sequence of characters (the rest of the pattern is tried on every
suffix), `_` matches exactly one character, any other pattern character
matches itself. -/
def likeMatch : List Char → List Char → Bool
  | [], cs => cs.isEmpty
  | p :: ps, cs =>
    if p = '%' then
      likeStar (likeMatch ps) cs
    else
      match cs with
      | [] => false
      | c :: cs2 => (if p = '_' then true else p == c) && likeMatch ps cs2

/-- `column.ilike(f"%{search}%")`: case-insensitive `LIKE` against the
pattern that wraps the search string in `%` wildcards.  `ILIKE` is
modelled by lowering both sides before matching. -/
def ilikePercent (column srch : String) : Bool :=
  likeMatch ('%' :: (srch.toList.map Char.toLower ++ ['%'])) (column.toList.map Char.toLower)

/-- The `or_` of the four `ilike` clauses of `get_movies`. -/
def movieSearchMatch (srch : String) (m : Movie) : Bool :=
  ilikePercent m.title srch || ilikePercent m.description srch ||
    ilikePercent m.director srch || ilikePercent m.cast srch

/-- `query.join(MovieGenre).filter(MovieGenre.genre_id == genre_id)`:
the movie has an association row with the given genre id. -/
def movieHasGenre (db : DB) (m : Movie) (genre_id : Nat) : Bool :=
  db.movie_genres.any (fun mg => mg.movie_id == m.id && mg.genre_id == genre_id)

/-- Python truthiness of an optional string (`if search:`): present and
nonempty. -/
def truthyStr : Option String → Bool
  | none => false
  | some v => !(v == "")

/-- Python truthiness of an optional integer (`if genre_id:`): present and
nonzero. -/
def truthyNat : Option Nat → Bool
  | none => false
  | some n => !(n == 0)

/-- One conditional `query.filter` clause: applied when the guard holds,
otherwise the query is left as it was. -/
def applyIf (b : Bool) (p : Movie → Bool) (q : List Movie) : List Movie :=
  if b then q.filter p else q

/-- The filter pipeline of `MovieService.get_movies`, exactly in source
order: `search` and the scalar filters guarded by Python truthiness,
`is_featured` and `is_trending` guarded by `is not None`. -/
def filterMovies (db : DB) (search : Option String) (genre_id : Option Nat)
    (st : Option String) (is_featured : Option Bool) (is_trending : Option Bool)
    (release_year : Option Nat) : List Movie :=
  let q := db.movies
  let q := applyIf (truthyStr search) (movieSearchMatch (search.getD "")) q
  let q := applyIf (truthyNat genre_id) (fun m => movieHasGenre db m (genre_id.getD 0)) q
  let q := applyIf (truthyStr st) (fun m => m.status == st.getD "") q
  let q := applyIf is_featured.isSome (fun m => m.is_featured == is_featured.getD false) q
  let q := applyIf is_trending.isSome (fun m => m.is_trending == is_trending.getD false) q
  let q := applyIf (truthyNat release_year) (fun m => m.release_year == release_year.getD 0) q
  q

/-- `order_by(Movie.created_at.desc())`: most recent creation first. -/
def createdDesc (a b : Movie) : Prop := b.created_at ≤ a.created_at

instance : DecidableRel createdDesc := fun a b => Nat.decLe b.created_at a.created_at

instance : IsTotal Movie createdDesc :=
  ⟨fun a b => Nat.le_total b.created_at a.created_at⟩

instance : IsTrans Movie createdDesc :=
  ⟨fun _ _ _ hab hbc => Nat.le_trans hbc hab⟩

def sortByCreatedDesc (l : List Movie) : List Movie := List.insertionSort createdDesc l

/-- `MovieService.get_movies`: filter, count the full filtered set, then
order by creation time descending and window by `offset(skip).limit(limit)`. -/
def get_movies (db : DB) (skip limit : Nat) (search : Option String)
    (genre_id : Option Nat) (st : Option String) (is_featured : Option Bool)
    (is_trending : Option Bool) (release_year : Option Nat) : List Movie × Nat :=
  let q := filterMovies db search genre_id st is_featured is_trending release_year
  let total := q.length
  let page := ((sortByCreatedDesc q).drop skip).take limit
  (page, total)

/-- `MovieService.get_movie_by_id`: return the movie or raise 404. -/
def get_movie_by_id (movie_id : Nat) (db : DB) : Except HTTPErr Movie :=
  match db.movies.find? (fun m => m.id == movie_id) with
  | some m => .ok m
  | none => .error (movieNotFound movie_id)

/-- Add one pending MovieGenre row (`db.add(MovieGenre(...))`). -/
def pendMG (s : Session) (movie_id genre_id : Nat) : Session :=
  ⟨s.committed,
   { s.pending with movie_genres := s.pending.movie_genres ++ [⟨movie_id, genre_id⟩] }⟩

/-- The genre-validation loop shared by `create_movie` and `update_movie`:
for each requested genre id in order, check the genre exists — rolling the
session back and raising 400 on a miss — and otherwise add the association
row to the pending state. -/
def addGenres (movie_id : Nat) : List Nat → Session → Except HTTPErr Unit × Session
  | [], s => (.ok (), s)
  | genre_id :: rest, s =>
    if genreExists s.pending genre_id then
      addGenres movie_id rest (pendMG s movie_id genre_id)
    else
      (.error (genreNotFoundBad genre_id), s.rollback)

/-- Modelled from the spec: the `MovieCreate` schema
(`app/schemas/movie.py` is not in `src/`): the creation payload carries the
descriptive fields and media URLs, a list of genre ids, and — since the
spec's implicit claim is that any caller-supplied lifecycle status is
ignored — an optional `status` the service never reads. -/
structure MovieCreate where
  title : String
  description : String
  duration : Nat
  release_year : Nat
  director : String
  cast : String
  rating : String
  language : String
  country : String
  poster_url : String
  backdrop_url : String
  trailer_url : String
  status : Option String := none
  genre_ids : List Nat := []
deriving Repr, DecidableEq

/-- The `Movie(...)` constructor call of `create_movie`: every field from
the payload except the lifecycle status, which is hard-coded to
`"pending"`; flags and counter at their column defaults; id and creation
timestamp assigned from the database counters at flush. -/
def newMovieOf (movie_data : MovieCreate) (db : DB) : Movie :=
  { id := db.next_movie_id,
    title := movie_data.title,
    description := movie_data.description,
    duration := movie_data.duration,
    release_year := movie_data.release_year,
    director := movie_data.director,
    cast := movie_data.cast,
    rating := movie_data.rating,
    language := movie_data.language,
    country := movie_data.country,
    poster_url := movie_data.poster_url,
    backdrop_url := movie_data.backdrop_url,
    trailer_url := movie_data.trailer_url,
    status := "pending",
    is_featured := false,
    is_trending := false,
    view_count := 0,
    created_at := db.clock }

/-- `db.add(new_movie); db.flush()`: the movie row enters the pending
state and the id counter and clock advance. -/
def flushMovie (movie_data : MovieCreate) (s : Session) : Session :=
  ⟨s.committed,
   { s.pending with
       movies := s.pending.movies ++ [newMovieOf movie_data s.pending],
       next_movie_id := s.pending.next_movie_id + 1,
       clock := s.pending.clock + 1 }⟩

/-- `MovieService.create_movie`: build the movie with `status="pending"`,
add and flush it (assigning its id and creation timestamp), then — when the
payload's genre id list is non-empty (`if movie_data.genre_ids:`) —
validate and add every requested genre association, rolling back with a
400 if any genre id is missing, and finally commit. -/
def create_movie (movie_data : MovieCreate) (s : Session) : Except HTTPErr Movie × Session :=
  let new_movie : Movie := newMovieOf movie_data s.pending
  let s1 : Session := flushMovie movie_data s
  match (if movie_data.genre_ids.isEmpty then (.ok (), s1)
         else addGenres new_movie.id movie_data.genre_ids s1 :
         Except HTTPErr Unit × Session) with
  | (.ok _, s2) => (.ok new_movie, s2.commit)
  | (.error e, s2) => (.error e, s2)

/-- Modelled from the spec: the `MovieUpdate` schema
(`app/schemas/movie.py` is not in `src/`): every field optional, with
`model_dump(exclude_unset=True)` semantics — a field is applied exactly
when it is present. -/
structure MovieUpdate where
  title : Option String := none
  description : Option String := none
  duration : Option Nat := none
  release_year : Option Nat := none
  director : Option String := none
  cast : Option String := none
  rating : Option String := none
  language : Option String := none
  country : Option String := none
  poster_url : Option String := none
  backdrop_url : Option String := none
  trailer_url : Option String := none
  status : Option String := none
  is_featured : Option Bool := none
  is_trending : Option Bool := none
  genre_ids : Option (List Nat) := none
deriving Repr, DecidableEq

/-- The `setattr` loop of `update_movie` over
`model_dump(exclude_unset=True)` with `genre_ids` popped out: each present
field overwrites the movie's value, each absent field is untouched. -/
def applyFields (m : Movie) (u : MovieUpdate) : Movie :=
  { m with
    title := u.title.getD m.title,
    description := u.description.getD m.description,
    duration := u.duration.getD m.duration,
    release_year := u.release_year.getD m.release_year,
    director := u.director.getD m.director,
    cast := u.cast.getD m.cast,
    rating := u.rating.getD m.rating,
    language := u.language.getD m.language,
    country := u.country.getD m.country,
    poster_url := u.poster_url.getD m.poster_url,
    backdrop_url := u.backdrop_url.getD m.backdrop_url,
    trailer_url := u.trailer_url.getD m.trailer_url,
    status := u.status.getD m.status,
    is_featured := u.is_featured.getD m.is_featured,
    is_trending := u.is_trending.getD m.is_trending }

/-- Write the mutated ORM movie object back into the pending table. -/
def setMovie (db : DB) (movie_id : Nat) (m2 : Movie) : DB :=
  { db with movies := db.movies.map (fun m => if m.id == movie_id then m2 else m) }

/-- `db.query(MovieGenre).filter(MovieGenre.movie_id == movie_id).delete()`:
remove, in the pending state, every association row of the movie. -/
def clearAssoc (movie_id : Nat) (s : Session) : Session :=
  ⟨s.committed,
   { s.pending with
       movie_genres := s.pending.movie_genres.filter (fun mg => !(mg.movie_id == movie_id)) }⟩

/-- `MovieService.update_movie`: fetch (404 on a miss), apply the present
fields, and — only when a genre id list was supplied — delete the movie's
association rows and re-add the validated new ones, rolling back with a
400 if any id is missing; commit otherwise. -/
def update_movie (movie_id : Nat) (u : MovieUpdate) (s : Session) : Except HTTPErr Movie × Session :=
  match get_movie_by_id movie_id s.pending with
  | .error e => (.error e, s)
  | .ok movie =>
    let movie2 := applyFields movie u
    let s1 : Session := ⟨s.committed, setMovie s.pending movie_id movie2⟩
    match u.genre_ids with
    | none => (.ok movie2, s1.commit)
    | some genre_ids =>
      match addGenres movie_id genre_ids (clearAssoc movie_id s1) with
      | (.ok _, s3) => (.ok movie2, s3.commit)
      | (.error e, s3) => (.error e, s3)

/-- `MovieService.delete_movie`: fetch (404 on a miss), delete, commit. -/
def delete_movie (movie_id : Nat) (s : Session) : Except HTTPErr Unit × Session :=
  match get_movie_by_id movie_id s.pending with
  | .error e => (.error e, s)
  | .ok _ =>
    let s1 : Session :=
      ⟨s.committed,
       { s.pending with movies := s.pending.movies.filter (fun m => !(m.id == movie_id)) }⟩
    (.ok (), s1.commit)

/-- `MovieService.increment_view_count`: fetch (404 on a miss), add one to
the counter, commit. -/
def increment_view_count (movie_id : Nat) (s : Session) : Except HTTPErr Unit × Session :=
  match get_movie_by_id movie_id s.pending with
  | .error e => (.error e, s)
  | .ok movie =>
    let s1 : Session :=
      ⟨s.committed, setMovie s.pending movie_id { movie with view_count := movie.view_count + 1 }⟩
    (.ok (), s1.commit)

/-- Case-insensitive literal-substring test, the predicate the spec's
search sentence describes: `needle` occurs, after lowering both strings,
as a contiguous substring of `hay`. -/
def strContainsCI (hay needle : String) : Bool :=
  decide ((needle.toList.map Char.toLower) <:+: (hay.toList.map Char.toLower))

/-! ## Lemmas about the genre-validation loop -/

theorem addGenres_cons (movie_id a : Nat) (rest : List Nat) (s : Session) :
    addGenres movie_id (a :: rest) s =
      if genreExists s.pending a then addGenres movie_id rest (pendMG s movie_id a)
      else (.error (genreNotFoundBad a), s.rollback) := rfl

/-- If some requested genre id is missing, the loop stops at the first
missing id, reports it in a 400, and leaves the session rolled back to the
committed state. -/
theorem addGenres_missing (movie_id : Nat) (l : List Nat) :
    ∀ s : Session, (∃ g ∈ l, genreExists s.pending g = false) →
      ∃ g ∈ l, genreExists s.pending g = false ∧
        addGenres movie_id l s = (.error (genreNotFoundBad g), ⟨s.committed, s.committed⟩) := by
  induction l with
  | nil => intro s h; simp at h
  | cons a rest ih =>
    intro s h
    by_cases ha : genreExists s.pending a = true
    · obtain ⟨g, hg, hgf⟩ := h
      have hgrest : g ∈ rest := by
        rcases List.mem_cons.mp hg with h1 | h1
        · rw [h1, ha] at hgf; cases hgf
        · exact h1
      obtain ⟨g2, hg2, hg2f, heq⟩ := ih (pendMG s movie_id a) ⟨g, hgrest, hgf⟩
      exact ⟨g2, List.mem_cons_of_mem a hg2, hg2f, by rw [addGenres_cons, if_pos ha]; exact heq⟩
    · have ha2 : genreExists s.pending a = false := by
        cases hb : genreExists s.pending a
        · rfl
        · exact absurd hb ha
      exact ⟨a, List.mem_cons_self a rest, ha2,
        by rw [addGenres_cons, if_neg (by rw [ha2]; exact Bool.false_ne_true)]; rfl⟩

/-- If every requested genre id exists, the loop succeeds and appends
exactly one association row per requested id, in order. -/
theorem addGenres_ok (movie_id : Nat) (l : List Nat) :
    ∀ s : Session, (∀ g ∈ l, genreExists s.pending g = true) →
      addGenres movie_id l s =
        (.ok (), ⟨s.committed,
          { s.pending with
              movie_genres := s.pending.movie_genres ++ l.map (fun g => ⟨movie_id, g⟩) }⟩) := by
  induction l with
  | nil => intro s _; simp [addGenres]
  | cons a rest ih =>
    intro s h
    rw [addGenres_cons, if_pos (h a (List.mem_cons_self a rest))]
    rw [ih (pendMG s movie_id a) (fun g hg => h g (List.mem_cons_of_mem a hg))]
    simp [pendMG]

/-- The loop either succeeds — changing only the pending association
table — or fails with a 400 and a session reset to the committed state. -/
theorem addGenres_cases (movie_id : Nat) (l : List Nat) :
    ∀ s : Session,
      (∃ mgs, addGenres movie_id l s =
        (.ok (), ⟨s.committed, { s.pending with movie_genres := mgs }⟩))
      ∨ (∃ e, addGenres movie_id l s = (.error e, ⟨s.committed, s.committed⟩)
          ∧ e.status_code = 400) := by
  induction l with
  | nil => intro s; exact Or.inl ⟨s.pending.movie_genres, rfl⟩
  | cons a rest ih =>
    intro s
    by_cases ha : genreExists s.pending a = true
    · rcases ih (pendMG s movie_id a) with ⟨mgs, hm⟩ | ⟨e, hm, he⟩
      · exact Or.inl ⟨mgs, by rw [addGenres_cons, if_pos ha]; exact hm⟩
      · exact Or.inr ⟨e, by rw [addGenres_cons, if_pos ha]; exact hm, he⟩
    · exact Or.inr ⟨genreNotFoundBad a, by rw [addGenres_cons, if_neg ha]; rfl, rfl⟩

theorem create_movie_run (md : MovieCreate) (s : Session) :
    create_movie md s =
      (match (if md.genre_ids.isEmpty then (.ok (), flushMovie md s)
              else addGenres (newMovieOf md s.pending).id md.genre_ids (flushMovie md s) :
              Except HTTPErr Unit × Session) with
       | (.ok _, s2) => (.ok (newMovieOf md s.pending), s2.commit)
       | (.error e, s2) => (.error e, s2)) := rfl

/-! ## C1 -/

/-- C1: a movie-creation request whose genre id list contains an id not in
the Genre set fails with a ValidationError (HTTP 400) naming an offending
genre id, and the failed call leaves the store exactly as committed before
the call: no Movie row and no MovieGenre row is persisted, the session
being rolled back to the prior committed state. -/
theorem create_movie_missing_genre_fails_unchanged (s : Session) (md : MovieCreate)
    (hclean : s.pending = s.committed)
    (hmiss : ∃ g ∈ md.genre_ids, genreExists s.committed g = false) :
    ∃ g ∈ md.genre_ids, genreExists s.committed g = false ∧
      create_movie md s = (.error (genreNotFoundBad g), ⟨s.committed, s.committed⟩) := by
  have hpend : ∀ g, genreExists (flushMovie md s).pending g = genreExists s.committed g := by
    intro g; show genreExists s.pending g = _; rw [hclean]
  obtain ⟨g, hg, hgf, heq⟩ :=
    addGenres_missing (newMovieOf md s.pending).id md.genre_ids (flushMovie md s)
      (by obtain ⟨g, hg, hgf⟩ := hmiss; exact ⟨g, hg, by rw [hpend]; exact hgf⟩)
  refine ⟨g, hg, by rw [← hpend]; exact hgf, ?_⟩
  have hne : md.genre_ids.isEmpty = false := by
    cases hl : md.genre_ids
    · rw [hl] at hg; cases hg
    · rfl
  rw [create_movie_run, hne]
  simp only [Bool.false_eq_true, if_false]
  rw [heq]
  rfl

/-- Concrete input for C1: one genre (id 1) in the store, a creation
request referencing genres 1 and 2; genre 2 is missing, so the call fails
with the 400 naming id 2 and the store is unchanged. -/
def dbW : DB :=
  { movies := [],
    genres := [⟨1, "Action", "action"⟩],
    movie_genres := [],
    next_movie_id := 1,
    next_genre_id := 2,
    clock := 0 }

def sW : Session := ⟨dbW, dbW⟩

def mdW : MovieCreate :=
  { title := "T", description := "d", duration := 90, release_year := 2024,
    director := "D", cast := "C", rating := "PG", language := "en", country := "ke",
    poster_url := "p", backdrop_url := "b", trailer_url := "t",
    status := some "published", genre_ids := [1, 2] }

theorem create_movie_missing_genre_fails_unchanged_witness :
    ∃ g ∈ mdW.genre_ids, genreExists sW.committed g = false ∧
      create_movie mdW sW = (.error (genreNotFoundBad g), ⟨sW.committed, sW.committed⟩) :=
  create_movie_missing_genre_fails_unchanged sW mdW rfl ⟨2, by decide, by decide⟩

/-! ## C2 and C3 -/

theorem get_movie_by_id_eq (movie_id : Nat) (db : DB) :
    get_movie_by_id movie_id db =
      match db.movies.find? (fun m => m.id == movie_id) with
      | some m => .ok m
      | none => .error (movieNotFound movie_id) := rfl

theorem update_movie_eq (movie_id : Nat) (u : MovieUpdate) (s : Session) :
    update_movie movie_id u s =
      match get_movie_by_id movie_id s.pending with
      | .error e => (.error e, s)
      | .ok movie =>
        match u.genre_ids with
        | none => (.ok (applyFields movie u),
            (⟨s.committed, setMovie s.pending movie_id (applyFields movie u)⟩ : Session).commit)
        | some genre_ids =>
          match addGenres movie_id genre_ids
              (clearAssoc movie_id ⟨s.committed, setMovie s.pending movie_id (applyFields movie u)⟩) with
          | (.ok _, s3) => (.ok (applyFields movie u), s3.commit)
          | (.error e, s3) => (.error e, s3) := rfl

/-- A record lookup that succeeds yields the found row. -/
theorem movieExists_find (s : Session) (movie_id : Nat) (hclean : s.pending = s.committed)
    (hmovie : movieExists s.committed movie_id = true) :
    ∃ m, s.pending.movies.find? (fun m => m.id == movie_id) = some m := by
  rw [hclean]
  rcases ho : s.committed.movies.find? (fun m => m.id == movie_id) with _ | m
  · rw [movieExists, ho] at hmovie; cases hmovie
  · exact ⟨m, ho⟩

/-- C2: a movie update supplying a genre id list with a missing id fails
with a ValidationError (HTTP 400) naming an offending id, and the session
is rolled back to the prior committed state — the movie's fields and the
whole association table (including the rows deleted mid-operation) are
exactly as they were before the call. -/
theorem update_movie_missing_genre_fails_unchanged (s : Session) (movie_id : Nat)
    (u : MovieUpdate) (gids : List Nat)
    (hclean : s.pending = s.committed)
    (hmovie : movieExists s.committed movie_id = true)
    (hg : u.genre_ids = some gids)
    (hmiss : ∃ g ∈ gids, genreExists s.committed g = false) :
    ∃ g ∈ gids, genreExists s.committed g = false ∧
      update_movie movie_id u s = (.error (genreNotFoundBad g), ⟨s.committed, s.committed⟩) := by
  obtain ⟨movie, hfind⟩ := movieExists_find s movie_id hclean hmovie
  have hpend : ∀ g,
      genreExists (clearAssoc movie_id
        ⟨s.committed, setMovie s.pending movie_id (applyFields movie u)⟩).pending g =
      genreExists s.committed g := by
    intro g; show genreExists s.pending g = _; rw [hclean]
  obtain ⟨g, hgmem, hgf, heq⟩ :=
    addGenres_missing movie_id gids
      (clearAssoc movie_id ⟨s.committed, setMovie s.pending movie_id (applyFields movie u)⟩)
      (by obtain ⟨g, hgm, hgf⟩ := hmiss; exact ⟨g, hgm, by rw [hpend]; exact hgf⟩)
  refine ⟨g, hgmem, by rw [← hpend]; exact hgf, ?_⟩
  have hrun : update_movie movie_id u s =
      match addGenres movie_id gids
          (clearAssoc movie_id ⟨s.committed, setMovie s.pending movie_id (applyFields movie u)⟩) with
      | (.ok _, s3) => (.ok (applyFields movie u), s3.commit)
      | (.error e, s3) => (.error e, s3) := by
    rw [update_movie_eq, get_movie_by_id_eq, hfind, hg]
  rw [hrun, heq]
  rfl

/-- C3: a movie update supplying a genre id list whose ids all exist
succeeds, and afterwards the movie's committed association set is exactly
the supplied set — old associations not in the new list are gone and every
id in the new list has an association. -/
theorem update_movie_replaces_associations (s : Session) (movie_id : Nat)
    (u : MovieUpdate) (gids : List Nat)
    (hclean : s.pending = s.committed)
    (hmovie : movieExists s.committed movie_id = true)
    (hg : u.genre_ids = some gids)
    (hall : ∀ g ∈ gids, genreExists s.committed g = true) :
    ∃ m2 s3, update_movie movie_id u s = (.ok m2, s3) ∧
      ∀ g : Nat, (⟨movie_id, g⟩ : MovieGenre) ∈ s3.committed.movie_genres ↔ g ∈ gids := by
  obtain ⟨movie, hfind⟩ := movieExists_find s movie_id hclean hmovie
  have hpend : ∀ g,
      genreExists (clearAssoc movie_id
        ⟨s.committed, setMovie s.pending movie_id (applyFields movie u)⟩).pending g =
      genreExists s.committed g := by
    intro g; show genreExists s.pending g = _; rw [hclean]
  have heq :=
    addGenres_ok movie_id gids
      (clearAssoc movie_id ⟨s.committed, setMovie s.pending movie_id (applyFields movie u)⟩)
      (fun g hgm => by rw [hpend]; exact hall g hgm)
  have hrun : update_movie movie_id u s =
      match addGenres movie_id gids
          (clearAssoc movie_id ⟨s.committed, setMovie s.pending movie_id (applyFields movie u)⟩) with
      | (.ok _, s3) => (.ok (applyFields movie u), s3.commit)
      | (.error e, s3) => (.error e, s3) := by
    rw [update_movie_eq, get_movie_by_id_eq, hfind, hg]
  refine ⟨applyFields movie u, (update_movie movie_id u s).2, ?_, ?_⟩
  · rw [hrun, heq]
  · intro g
    rw [hrun, heq]
    show (⟨movie_id, g⟩ : MovieGenre) ∈
        (s.pending.movie_genres.filter (fun mg => !(mg.movie_id == movie_id)) ++
          gids.map (fun g => (⟨movie_id, g⟩ : MovieGenre))) ↔ g ∈ gids
    simp only [List.mem_append, List.mem_filter, List.mem_map]
    constructor
    · rintro (⟨_, hpred⟩ | ⟨g2, hg2, hEq⟩)
      · simp at hpred
      · injection hEq with _ h2; rw [← h2]; exact hg2
    · intro hgin; exact Or.inr ⟨g, hgin, rfl⟩

/-- Concrete input for C2 and C3 witnesses: a store holding one movie
(id 1, already associated with genre 1) and genres 1 and 2. -/
def mW : Movie :=
  { id := 1, title := "Alpha", description := "first", duration := 100,
    release_year := 2020, director := "A", cast := "B", rating := "PG",
    language := "en", country := "ke", poster_url := "p", backdrop_url := "b",
    trailer_url := "t", status := "published", is_featured := false,
    is_trending := true, view_count := 7, created_at := 1 }

def dbW2 : DB :=
  { movies := [mW],
    genres := [⟨1, "Action", "action"⟩, ⟨2, "Drama", "drama"⟩],
    movie_genres := [⟨1, 1⟩],
    next_movie_id := 2,
    next_genre_id := 3,
    clock := 5 }

def sW2 : Session := ⟨dbW2, dbW2⟩

theorem update_movie_missing_genre_fails_unchanged_witness :
    ∃ g ∈ [2, 9], genreExists sW2.committed g = false ∧
      update_movie 1 { genre_ids := some [2, 9] } sW2 =
        (.error (genreNotFoundBad g), ⟨sW2.committed, sW2.committed⟩) :=
  update_movie_missing_genre_fails_unchanged sW2 1 { genre_ids := some [2, 9] } [2, 9]
    rfl (by decide) rfl ⟨9, by decide, by decide⟩

theorem update_movie_replaces_associations_witness :
    ∃ m2 s3, update_movie 1 { genre_ids := some [2] } sW2 = (.ok m2, s3) ∧
      ∀ g : Nat, (⟨1, g⟩ : MovieGenre) ∈ s3.committed.movie_genres ↔ g ∈ [2] :=
  update_movie_replaces_associations sW2 1 { genre_ids := some [2] } [2]
    rfl (by decide) rfl (by decide)

/-! ## C4: filter application -/

theorem mem_applyIf {p : Movie → Bool} {q : List Movie} {m : Movie} :
    ∀ {b : Bool}, m ∈ applyIf b p q → m ∈ q ∧ (b = true → p m = true)
  | false, h => ⟨by simpa [applyIf] using h, fun hh => by cases hh⟩
  | true, h => by
      rw [applyIf, if_pos rfl] at h
      exact ⟨(List.mem_filter.mp h).1, fun _ => (List.mem_filter.mp h).2⟩

/-- Each conditionally-applied filter clause constrains every movie in the
filtered query. -/
theorem mem_filterMovies {db : DB} {search : Option String} {genre_id : Option Nat}
    {st : Option String} {feat trend : Option Bool} {yr : Option Nat} {m : Movie}
    (h : m ∈ filterMovies db search genre_id st feat trend yr) :
    m ∈ db.movies
    ∧ (truthyStr search = true → movieSearchMatch (search.getD "") m = true)
    ∧ (truthyNat genre_id = true → movieHasGenre db m (genre_id.getD 0) = true)
    ∧ (truthyStr st = true → (m.status == st.getD "") = true)
    ∧ (feat.isSome = true → (m.is_featured == feat.getD false) = true)
    ∧ (trend.isSome = true → (m.is_trending == trend.getD false) = true)
    ∧ (truthyNat yr = true → (m.release_year == yr.getD 0) = true) := by
  simp only [filterMovies] at h
  obtain ⟨h, hyr⟩ := mem_applyIf h
  obtain ⟨h, htrend⟩ := mem_applyIf h
  obtain ⟨h, hfeat⟩ := mem_applyIf h
  obtain ⟨h, hst⟩ := mem_applyIf h
  obtain ⟨h, hgid⟩ := mem_applyIf h
  obtain ⟨h, hsearch⟩ := mem_applyIf h
  exact ⟨h, hsearch, hgid, hst, hfeat, htrend, hyr⟩

/-- A movie on the returned page belongs to the filtered query. -/
theorem mem_get_movies_page {db : DB} {skip limit : Nat} {search : Option String}
    {genre_id : Option Nat} {st : Option String} {feat trend : Option Bool}
    {yr : Option Nat} {m : Movie}
    (h : m ∈ (get_movies db skip limit search genre_id st feat trend yr).1) :
    m ∈ filterMovies db search genre_id st feat trend yr := by
  simp only [get_movies, sortByCreatedDesc] at h
  exact (List.perm_insertionSort createdDesc _).subset
    (List.mem_of_mem_drop (List.mem_of_mem_take h))

/-- C4 counterexample: `release_year` present with the falsy value 0 is
NOT applied as an exact-match condition — a movie whose release year is
2020 is still returned, where the claim requires only movies with release
year 0. -/
theorem get_movies_falsy_filter_counterexample :
    mW ∈ (get_movies dbW2 0 20 none none none none none (some 0)).1
    ∧ mW.release_year ≠ 0 := by decide

/-- C4 (amended): `isFeatured` and `isTrending` are exact-match AND
conditions whenever present (including `false`); `genreId`, `status` and
`releaseYear` are exact-match AND conditions only when present AND truthy
(nonzero id or year, nonempty status) — a present falsy value (0 or the
empty string) behaves exactly as if the filter were absent. -/
theorem get_movies_filter_semantics (db : DB) (skip limit : Nat) (search : Option String)
    (gid : Option Nat) (st : Option String) (feat trend : Option Bool) (yr : Option Nat) :
    (∀ m ∈ (get_movies db skip limit search gid st feat trend yr).1,
        (∀ g, gid = some g → g ≠ 0 → movieHasGenre db m g = true)
      ∧ (∀ v, st = some v → v ≠ "" → m.status = v)
      ∧ (∀ b, feat = some b → m.is_featured = b)
      ∧ (∀ b, trend = some b → m.is_trending = b)
      ∧ (∀ y, yr = some y → y ≠ 0 → m.release_year = y))
    ∧ get_movies db skip limit search (some 0) st feat trend yr
        = get_movies db skip limit search none st feat trend yr
    ∧ get_movies db skip limit search gid (some "") feat trend yr
        = get_movies db skip limit search gid none feat trend yr
    ∧ get_movies db skip limit search gid st feat trend (some 0)
        = get_movies db skip limit search gid st feat trend none := by
  refine ⟨?_, rfl, rfl, rfl⟩
  intro m hm
  obtain ⟨_, _, hgid, hst, hfeat, htrend, hyr⟩ := mem_filterMovies (mem_get_movies_page hm)
  refine ⟨?_, ?_, ?_, ?_, ?_⟩
  · intro g hge hg0
    have ht : truthyNat gid = true := by rw [hge]; simp [truthyNat, hg0]
    have h2 := hgid ht; rw [hge] at h2; simpa using h2
  · intro v hve hv0
    have ht : truthyStr st = true := by rw [hve]; simp [truthyStr, hv0]
    have h2 := hst ht; rw [hve] at h2; simpa using h2
  · intro b hbe
    have h2 := hfeat (by rw [hbe]; rfl); rw [hbe] at h2; simpa using h2
  · intro b hbe
    have h2 := htrend (by rw [hbe]; rfl); rw [hbe] at h2; simpa using h2
  · intro y hye hy0
    have ht : truthyNat yr = true := by rw [hye]; simp [truthyNat, hy0]
    have h2 := hyr ht; rw [hye] at h2; simpa using h2

theorem get_movies_filter_semantics_witness :
    mW.is_trending = true ∧ mW.release_year = 2020 :=
  ⟨((get_movies_filter_semantics dbW2 0 20 none none none none (some true) (some 2020)).1
      mW (by decide)).2.2.2.1 true rfl,
   ((get_movies_filter_semantics dbW2 0 20 none none none none (some true) (some 2020)).1
      mW (by decide)).2.2.2.2 2020 rfl (by decide)⟩

/-! ## C5: search semantics -/

/-- `likeStar` succeeds iff the predicate holds on some suffix. -/
theorem likeStar_eq_true (f : List Char → Bool) :
    ∀ cs, likeStar f cs = true ↔ ∃ t, t <:+ cs ∧ f t = true := by
  intro cs
  induction cs with
  | nil =>
    constructor
    · intro h; exact ⟨[], List.suffix_rfl, h⟩
    · rintro ⟨t, ht, hm⟩
      rw [List.suffix_nil.mp ht] at hm
      exact hm
  | cons c cs2 ih =>
    show (f (c :: cs2) || likeStar f cs2) = true ↔ _
    simp only [Bool.or_eq_true, ih]
    constructor
    · rintro (h | ⟨t, ht, hm⟩)
      · exact ⟨c :: cs2, List.suffix_rfl, h⟩
      · exact ⟨t, ht.trans (List.suffix_cons c cs2), hm⟩
    · rintro ⟨t, ht, hm⟩
      rcases List.suffix_cons_iff.mp ht with h1 | h1
      · exact Or.inl (h1 ▸ hm)
      · exact Or.inr ⟨t, h1, hm⟩

/-- A leading `%` wildcard matches iff the rest of the pattern matches
some suffix. -/
theorem likeMatch_wild (cs ps : List Char) :
    likeMatch ('%' :: ps) cs = true ↔ ∃ t, t <:+ cs ∧ likeMatch ps t = true := by
  show likeStar (likeMatch ps) cs = true ↔ _
  exact likeStar_eq_true (likeMatch ps) cs

/-- A wildcard-free pattern followed by a `%` matches iff the literal part
is a prefix of the text. -/
theorem likeMatch_lit_pct : ∀ (ps : List Char), (∀ c ∈ ps, c ≠ '%' ∧ c ≠ '_') →
    ∀ cs, likeMatch (ps ++ ['%']) cs = true ↔ ps <+: cs := by
  intro ps
  induction ps with
  | nil =>
    intro _ cs
    simp only [List.nil_append, List.nil_prefix, iff_true]
    show likeStar (likeMatch []) cs = true
    exact (likeStar_eq_true _ cs).mpr ⟨[], List.nil_suffix, rfl⟩
  | cons p ps ih =>
    intro hlit cs
    have hp := hlit p (List.mem_cons_self p ps)
    have hih := ih (fun x hx => hlit x (List.mem_cons_of_mem p hx))
    cases cs with
    | nil =>
      show (if p = '%' then likeStar (likeMatch (ps ++ ['%'])) [] else false) = true ↔
        p :: ps <+: ([] : List Char)
      rw [if_neg hp.1]
      simp
    | cons c cs2 =>
      show (if p = '%' then likeStar (likeMatch (ps ++ ['%'])) (c :: cs2)
            else ((if p = '_' then true else p == c) && likeMatch (ps ++ ['%']) cs2)) = true ↔
        p :: ps <+: c :: cs2
      rw [if_neg hp.1, if_neg hp.2]
      simp only [Bool.and_eq_true, beq_iff_eq, hih cs2, List.cons_prefix_cons]

/-- A wildcard-free search term wrapped in `%` wildcards matches iff it is
a contiguous substring of the text. -/
theorem likeMatch_infix (ps : List Char) (hlit : ∀ c ∈ ps, c ≠ '%' ∧ c ≠ '_')
    (cs : List Char) :
    likeMatch ('%' :: (ps ++ ['%'])) cs = true ↔ ps <:+: cs := by
  rw [likeMatch_wild]
  constructor
  · rintro ⟨t, ht, hm⟩
    exact List.infix_iff_prefix_suffix.mpr ⟨t, (likeMatch_lit_pct ps hlit t).mp hm, ht⟩
  · intro h
    obtain ⟨t, hp, hs⟩ := List.infix_iff_prefix_suffix.mp h
    exact ⟨t, hs, (likeMatch_lit_pct ps hlit t).mpr hp⟩

/-- For a wildcard-free search term the `ilike` clause is exactly the
case-insensitive literal-substring test. -/
theorem ilikePercent_eq_contains (col srch : String)
    (hlit : ∀ c ∈ srch.toList.map Char.toLower, c ≠ '%' ∧ c ≠ '_') :
    ilikePercent col srch = strContainsCI col srch := by
  rw [ilikePercent, strContainsCI, Bool.eq_iff_iff,
    likeMatch_infix (srch.toList.map Char.toLower) hlit (col.toList.map Char.toLower)]
  simp

/-- On the empty search term the substring test is trivially true. -/
theorem strContainsCI_empty (col : String) : strContainsCI col "" = true := by
  rw [strContainsCI]
  exact decide_eq_true List.nil_infix

theorem mem_sortByCreatedDesc {m : Movie} {l : List Movie} :
    m ∈ sortByCreatedDesc l ↔ m ∈ l :=
  (List.perm_insertionSort createdDesc l).mem_iff

theorem applyIf_length_le (b : Bool) (p : Movie → Bool) (l : List Movie) :
    (applyIf b p l).length ≤ l.length := by
  cases b
  · simp [applyIf]
  · rw [applyIf, if_pos rfl]
    exact List.length_filter_le p l

theorem filterMovies_length_le (db : DB) (search : Option String) (gid : Option Nat)
    (st : Option String) (feat trend : Option Bool) (yr : Option Nat) :
    (filterMovies db search gid st feat trend yr).length ≤ db.movies.length := by
  simp only [filterMovies]
  exact le_trans (applyIf_length_le _ _ _) (le_trans (applyIf_length_le _ _ _)
    (le_trans (applyIf_length_le _ _ _) (le_trans (applyIf_length_le _ _ _)
      (le_trans (applyIf_length_le _ _ _) (applyIf_length_le _ _ _)))))

/-- C5 counterexample: the search string `a_c` is NOT treated as a literal
substring — `_` acts as a single-character wildcard, so the movie titled
`abc` is returned even though `a_c` is not a substring of any of its four
searched fields. -/
def mC5 : Movie :=
  { id := 1, title := "abc", description := "x", duration := 10,
    release_year := 2000, director := "y", cast := "z", rating := "G",
    language := "en", country := "ke", poster_url := "p", backdrop_url := "b",
    trailer_url := "t", status := "pending", is_featured := false,
    is_trending := false, view_count := 0, created_at := 0 }

def dbC5 : DB :=
  { movies := [mC5], genres := [], movie_genres := [],
    next_movie_id := 2, next_genre_id := 1, clock := 1 }

theorem get_movies_search_wildcard_counterexample :
    mC5 ∈ (get_movies dbC5 0 20 (some "a_c") none none none none none).1
    ∧ strContainsCI mC5.title "a_c" = false
    ∧ strContainsCI mC5.description "a_c" = false
    ∧ strContainsCI mC5.director "a_c" = false
    ∧ strContainsCI mC5.cast "a_c" = false := by decide

/-- C5 (amended): the search filter matches the SQL pattern `%s%`
case-insensitively, in which `%` and `_` inside the search string act as
wildcards, not literals.  For every search string whose lowercase form is
wildcard-free, a movie is in the result (the full result: skip 0, limit at
least the store size, no other filters) iff the string occurs
case-insensitively as a literal substring of its title, description,
director, or cast field. -/
theorem get_movies_search_literal (db : DB) (srch : String) (limit : Nat) (m : Movie)
    (hlit : ∀ c ∈ srch.toList.map Char.toLower, c ≠ '%' ∧ c ≠ '_')
    (hlim : db.movies.length ≤ limit) :
    m ∈ (get_movies db 0 limit (some srch) none none none none none).1 ↔
      m ∈ db.movies ∧
        (strContainsCI m.title srch || strContainsCI m.description srch ||
         strContainsCI m.director srch || strContainsCI m.cast srch) = true := by
  have hq : (sortByCreatedDesc (filterMovies db (some srch) none none none none none)).length
      ≤ limit :=
    le_trans (le_of_eq (List.perm_insertionSort createdDesc _).length_eq)
      (le_trans (filterMovies_length_le db (some srch) none none none none none) hlim)
  have hpage : (get_movies db 0 limit (some srch) none none none none none).1
      = sortByCreatedDesc (filterMovies db (some srch) none none none none none) := by
    show ((sortByCreatedDesc (filterMovies db (some srch) none none none none none)).drop 0).take
          limit
        = sortByCreatedDesc (filterMovies db (some srch) none none none none none)
    rw [List.drop_zero, List.take_of_length_le hq]
  rw [hpage, mem_sortByCreatedDesc]
  by_cases hs : srch = ""
  · subst hs
    show m ∈ db.movies ↔ _
    simp [strContainsCI_empty]
  · have ht : truthyStr (some srch) = true := by simp [truthyStr, hs]
    show m ∈ applyIf (truthyStr (some srch)) (movieSearchMatch srch) db.movies ↔ _
    rw [ht, applyIf, if_pos rfl, List.mem_filter]
    rw [movieSearchMatch, ilikePercent_eq_contains m.title srch hlit,
      ilikePercent_eq_contains m.description srch hlit,
      ilikePercent_eq_contains m.director srch hlit,
      ilikePercent_eq_contains m.cast srch hlit]

theorem get_movies_search_literal_witness :
    mC5 ∈ (get_movies dbC5 0 20 (some "Bc") none none none none none).1 ↔
      mC5 ∈ dbC5.movies ∧
        (strContainsCI mC5.title "Bc" || strContainsCI mC5.description "Bc" ||
         strContainsCI mC5.director "Bc" || strContainsCI mC5.cast "Bc") = true :=
  get_movies_search_literal dbC5 "Bc" 20 mC5 (by decide) (by decide)

/-! ## C6: ordering, pagination window, and total count -/

/-- C6: the returned page is sorted by creation time, most recent first;
it is the `skip`/`limit` window of the sorted filtered set; the returned
total is the size of the full filtered set; and the total is independent
of the `skip` and `limit` values. -/
theorem get_movies_order_and_total (db : DB) (skip limit : Nat) (search : Option String)
    (gid : Option Nat) (st : Option String) (feat trend : Option Bool) (yr : Option Nat) :
    List.Pairwise (fun a b => b.created_at ≤ a.created_at)
        (get_movies db skip limit search gid st feat trend yr).1
    ∧ (get_movies db skip limit search gid st feat trend yr).1
        = ((sortByCreatedDesc (filterMovies db search gid st feat trend yr)).drop skip).take
            limit
    ∧ (get_movies db skip limit search gid st feat trend yr).2
        = (filterMovies db search gid st feat trend yr).length
    ∧ ∀ skip2 limit2 : Nat,
        (get_movies db skip2 limit2 search gid st feat trend yr).2
          = (get_movies db skip limit search gid st feat trend yr).2 := by
  refine ⟨?_, rfl, rfl, fun _ _ => rfl⟩
  have hs : List.Pairwise createdDesc
      (sortByCreatedDesc (filterMovies db search gid st feat trend yr)) :=
    List.sorted_insertionSort createdDesc _
  have hsub :
      (((sortByCreatedDesc (filterMovies db search gid st feat trend yr)).drop skip).take
          limit).Sublist
        (sortByCreatedDesc (filterMovies db search gid st feat trend yr)) :=
    (List.take_sublist _ _).trans (List.drop_sublist _ _)
  exact hs.sublist hsub

/-! ## C7: partial update applies exactly the supplied fields -/

/-- The field-patching contract: every absent field keeps its prior value
and every present field takes the supplied value — presence, not
truthiness, decides (so `false`, `0` and `""` are applied like any other
value). -/
def patchedFields (movie m2 : Movie) (u : MovieUpdate) : Prop :=
  (u.title = none → m2.title = movie.title) ∧ (∀ v, u.title = some v → m2.title = v)
  ∧ (u.description = none → m2.description = movie.description)
  ∧ (∀ v, u.description = some v → m2.description = v)
  ∧ (u.duration = none → m2.duration = movie.duration)
  ∧ (∀ v, u.duration = some v → m2.duration = v)
  ∧ (u.release_year = none → m2.release_year = movie.release_year)
  ∧ (∀ v, u.release_year = some v → m2.release_year = v)
  ∧ (u.director = none → m2.director = movie.director)
  ∧ (∀ v, u.director = some v → m2.director = v)
  ∧ (u.cast = none → m2.cast = movie.cast)
  ∧ (∀ v, u.cast = some v → m2.cast = v)
  ∧ (u.rating = none → m2.rating = movie.rating)
  ∧ (∀ v, u.rating = some v → m2.rating = v)
  ∧ (u.language = none → m2.language = movie.language)
  ∧ (∀ v, u.language = some v → m2.language = v)
  ∧ (u.country = none → m2.country = movie.country)
  ∧ (∀ v, u.country = some v → m2.country = v)
  ∧ (u.poster_url = none → m2.poster_url = movie.poster_url)
  ∧ (∀ v, u.poster_url = some v → m2.poster_url = v)
  ∧ (u.backdrop_url = none → m2.backdrop_url = movie.backdrop_url)
  ∧ (∀ v, u.backdrop_url = some v → m2.backdrop_url = v)
  ∧ (u.trailer_url = none → m2.trailer_url = movie.trailer_url)
  ∧ (∀ v, u.trailer_url = some v → m2.trailer_url = v)
  ∧ (u.status = none → m2.status = movie.status)
  ∧ (∀ v, u.status = some v → m2.status = v)
  ∧ (u.is_featured = none → m2.is_featured = movie.is_featured)
  ∧ (∀ v, u.is_featured = some v → m2.is_featured = v)
  ∧ (u.is_trending = none → m2.is_trending = movie.is_trending)
  ∧ (∀ v, u.is_trending = some v → m2.is_trending = v)
  ∧ m2.id = movie.id ∧ m2.view_count = movie.view_count
  ∧ m2.created_at = movie.created_at

/-- The `setattr` stage satisfies the field-patching contract. -/
theorem applyFields_patched (movie : Movie) (u : MovieUpdate) :
    patchedFields movie (applyFields movie u) u := by
  refine ⟨fun h => ?_, fun v h => ?_, fun h => ?_, fun v h => ?_, fun h => ?_, fun v h => ?_,
    fun h => ?_, fun v h => ?_, fun h => ?_, fun v h => ?_, fun h => ?_, fun v h => ?_,
    fun h => ?_, fun v h => ?_, fun h => ?_, fun v h => ?_, fun h => ?_, fun v h => ?_,
    fun h => ?_, fun v h => ?_, fun h => ?_, fun v h => ?_, fun h => ?_, fun v h => ?_,
    fun h => ?_, fun v h => ?_, fun h => ?_, fun v h => ?_, fun h => ?_, fun v h => ?_,
    rfl, rfl, rfl⟩ <;>
  · show Option.getD _ _ = _
    rw [h]
    rfl

/-- C7: an update whose payload omits the genre field modifies exactly
the supplied movie fields: absent fields keep their prior values, present
fields (falsy values included) take the supplied values; the association
table, the genre table and every other movie row are untouched. -/
theorem update_movie_partial_fields (s : Session) (movie_id : Nat) (u : MovieUpdate)
    (movie : Movie)
    (hclean : s.pending = s.committed)
    (hfind : s.committed.movies.find? (fun m => m.id == movie_id) = some movie)
    (hg : u.genre_ids = none) :
    ∃ s2, update_movie movie_id u s = (.ok (applyFields movie u), s2)
      ∧ s2.committed.movie_genres = s.committed.movie_genres
      ∧ s2.committed.genres = s.committed.genres
      ∧ s2.committed.movies
          = s.committed.movies.map (fun m => if m.id == movie_id then applyFields movie u else m)
      ∧ patchedFields movie (applyFields movie u) u := by
  have hfind2 : s.pending.movies.find? (fun m => m.id == movie_id) = some movie := by
    rw [hclean]; exact hfind
  refine ⟨(⟨s.committed, setMovie s.pending movie_id (applyFields movie u)⟩ : Session).commit,
    ?_, ?_, ?_, ?_, applyFields_patched movie u⟩
  · rw [update_movie_eq, get_movie_by_id_eq, hfind2, hg]
  · show s.pending.movie_genres = s.committed.movie_genres
    rw [hclean]
  · show s.pending.genres = s.committed.genres
    rw [hclean]
  · show s.pending.movies.map _ = s.committed.movies.map _
    rw [hclean]

/-- Concrete update for the C7 witness: several supplied fields carry
falsy values (empty string, zero, false); the rest are absent. -/
def uC7 : MovieUpdate :=
  { title := some "", duration := some 0, is_featured := some false,
    status := some "archived" }

theorem update_movie_partial_fields_witness :
    ∃ s2, update_movie 1 uC7 sW2 = (.ok (applyFields mW uC7), s2)
      ∧ s2.committed.movie_genres = sW2.committed.movie_genres
      ∧ s2.committed.genres = sW2.committed.genres
      ∧ s2.committed.movies
          = sW2.committed.movies.map (fun m => if m.id == 1 then applyFields mW uC7 else m)
      ∧ patchedFields mW (applyFields mW uC7) uC7 :=
  update_movie_partial_fields sW2 1 uC7 mW rfl (by decide) rfl

/-! ## C8: genre creation -/

theorem create_genre_eq (name slug : String) (s : Session) :
    create_genre name slug s =
      match s.pending.genres.find? (fun g => g.name == name || g.slug == slug) with
      | some _ => (.error genreDuplicate, s)
      | none =>
        (.ok (⟨s.pending.next_genre_id, name, slug⟩ : Genre),
         (⟨s.committed,
           { s.pending with
               genres := s.pending.genres ++ [⟨s.pending.next_genre_id, name, slug⟩],
               next_genre_id := s.pending.next_genre_id + 1 }⟩ : Session).commit) := rfl

theorem get_genre_by_id_eq (genre_id : Nat) (db : DB) :
    get_genre_by_id genre_id db =
      match db.genres.find? (fun g => g.id == genre_id) with
      | some g => .ok g
      | none => .error (genreNotFound genre_id) := rfl

theorem get_genre_by_slug_eq (slug : String) (db : DB) :
    get_genre_by_slug slug db =
      match db.genres.find? (fun g => g.slug == slug) with
      | some g => .ok g
      | none => .error (genreSlugNotFound slug) := rfl

/-- A failing search over the old rows lets `find?` over the extended
table fall through to the new row. -/
theorem find?_append_none {α : Type} (p : α → Bool) (l1 l2 : List α)
    (h : l1.find? p = none) : (l1 ++ l2).find? p = l2.find? p := by
  rw [List.find?_append, h, Option.none_or]

/-- C8: genre creation fails with a ValidationError iff some existing
genre has the same name or the same slug; with both unique it succeeds,
appends the new row, and the new genre is retrievable by `get_genre_by_id`
with its id and by `get_genre_by_slug` with its slug. -/
theorem create_genre_duplicate_or_retrievable (s : Session) (name slug : String)
    (hclean : s.pending = s.committed)
    (hids : ∀ g ∈ s.committed.genres, g.id < s.committed.next_genre_id) :
    ((∃ g ∈ s.committed.genres, g.name = name ∨ g.slug = slug) →
        create_genre name slug s = (.error genreDuplicate, s))
    ∧ ((∀ g ∈ s.committed.genres, g.name ≠ name ∧ g.slug ≠ slug) →
        ∃ g2 s2, create_genre name slug s = (.ok g2, s2)
          ∧ g2.name = name ∧ g2.slug = slug
          ∧ get_genre_by_id g2.id s2.committed = .ok g2
          ∧ get_genre_by_slug slug s2.committed = .ok g2
          ∧ s2.committed.genres = s.committed.genres ++ [g2]
          ∧ s2.committed.movies = s.committed.movies
          ∧ s2.committed.movie_genres = s.committed.movie_genres) := by
  constructor
  · rintro ⟨g, hg, hor⟩
    have hsome : (s.pending.genres.find? (fun g => g.name == name || g.slug == slug)).isSome := by
      rw [hclean]
      refine List.find?_isSome.mpr ⟨g, hg, ?_⟩
      rcases hor with h | h <;> simp [h]
    rcases hf : s.pending.genres.find? (fun g => g.name == name || g.slug == slug) with _ | g0
    · rw [hf] at hsome; cases hsome
    · rw [create_genre_eq, hf]
  · intro hno
    have hnone : s.pending.genres.find? (fun g => g.name == name || g.slug == slug) = none := by
      rw [hclean]
      refine List.find?_eq_none.mpr fun g hg => ?_
      have := hno g hg
      simp [this.1, this.2]
    refine ⟨⟨s.pending.next_genre_id, name, slug⟩,
      (⟨s.committed,
        { s.pending with
            genres := s.pending.genres ++ [⟨s.pending.next_genre_id, name, slug⟩],
            next_genre_id := s.pending.next_genre_id + 1 }⟩ : Session).commit,
      ?_, rfl, rfl, ?_, ?_, ?_, ?_, ?_⟩
    · rw [create_genre_eq, hnone]
    · show get_genre_by_id s.pending.next_genre_id
          { s.pending with
              genres := s.pending.genres ++ [⟨s.pending.next_genre_id, name, slug⟩],
              next_genre_id := s.pending.next_genre_id + 1 } = _
      rw [get_genre_by_id_eq]
      have h1 : s.pending.genres.find? (fun g => g.id == s.pending.next_genre_id) = none := by
        rw [hclean]
        refine List.find?_eq_none.mpr fun g hg => ?_
        have := Nat.ne_of_lt (hids g hg)
        simpa [hclean] using this
      show (match (s.pending.genres ++
            [(⟨s.pending.next_genre_id, name, slug⟩ : Genre)]).find?
              (fun g => g.id == s.pending.next_genre_id) with
            | some g => (.ok g : Except HTTPErr Genre)
            | none => .error (genreNotFound s.pending.next_genre_id)) = _
      rw [find?_append_none _ _ _ h1]
      simp [List.find?_cons]
    · show get_genre_by_slug slug
          { s.pending with
              genres := s.pending.genres ++ [⟨s.pending.next_genre_id, name, slug⟩],
              next_genre_id := s.pending.next_genre_id + 1 } = _
      rw [get_genre_by_slug_eq]
      have h1 : s.pending.genres.find? (fun g => g.slug == slug) = none := by
        rw [hclean]
        refine List.find?_eq_none.mpr fun g hg => ?_
        simp [(hno g hg).2]
      show (match (s.pending.genres ++
            [(⟨s.pending.next_genre_id, name, slug⟩ : Genre)]).find?
              (fun g => g.slug == slug) with
            | some g => (.ok g : Except HTTPErr Genre)
            | none => .error (genreSlugNotFound slug)) = _
      rw [find?_append_none _ _ _ h1]
      simp [List.find?_cons]
    · show s.pending.genres ++ _ = s.committed.genres ++ _
      rw [hclean]
    · show s.pending.movies = s.committed.movies
      rw [hclean]
    · show s.pending.movie_genres = s.committed.movie_genres
      rw [hclean]

theorem create_genre_duplicate_or_retrievable_witness :
    create_genre "Action" "other" sW2 = (.error genreDuplicate, sW2)
    ∧ ∃ g2 s2, create_genre "Comedy" "comedy" sW2 = (.ok g2, s2)
        ∧ g2.name = "Comedy" ∧ g2.slug = "comedy"
        ∧ get_genre_by_id g2.id s2.committed = .ok g2
        ∧ get_genre_by_slug "comedy" s2.committed = .ok g2
        ∧ s2.committed.genres = sW2.committed.genres ++ [g2]
        ∧ s2.committed.movies = sW2.committed.movies
        ∧ s2.committed.movie_genres = sW2.committed.movie_genres :=
  ⟨(create_genre_duplicate_or_retrievable sW2 "Action" "other" rfl (by decide)).1
      ⟨⟨1, "Action", "action"⟩, by decide, Or.inl rfl⟩,
   (create_genre_duplicate_or_retrievable sW2 "Comedy" "comedy" rfl (by decide)).2
      (by decide)⟩

/-! ## C9: lookup misses fail with 404, hits never raise 404 -/

theorem delete_movie_eq (movie_id : Nat) (s : Session) :
    delete_movie movie_id s =
      match get_movie_by_id movie_id s.pending with
      | .error e => (.error e, s)
      | .ok _ => (.ok (),
          (⟨s.committed,
            { s.pending with
                movies := s.pending.movies.filter (fun m => !(m.id == movie_id)) }⟩ :
            Session).commit) := rfl

theorem increment_view_count_eq (movie_id : Nat) (s : Session) :
    increment_view_count movie_id s =
      match get_movie_by_id movie_id s.pending with
      | .error e => (.error e, s)
      | .ok movie => (.ok (),
          (⟨s.committed,
            setMovie s.pending movie_id { movie with view_count := movie.view_count + 1 }⟩ :
            Session).commit) := rfl

theorem delete_genre_eq (genre_id : Nat) (s : Session) :
    delete_genre genre_id s =
      match get_genre_by_id genre_id s.pending with
      | .error e => (.error e, s)
      | .ok _ => (.ok (),
          (⟨s.committed,
            { s.pending with
                genres := s.pending.genres.filter (fun g => !(g.id == genre_id)) }⟩ :
            Session).commit) := rfl

theorem isSome_false_eq_none {α : Type} {o : Option α} (h : o.isSome = false) : o = none := by
  cases o
  · rfl
  · cases h

/-- C9: every lookup-based operation fails with a 404 naming the requested
id or slug when no matching record exists — never a silent no-op, the
session is returned untouched — and when the record exists no 404 is
raised: the getters and the single-row operations succeed, and an update
can only fail with a validation 400. -/
theorem lookup_miss_404_hit_no_404 (s : Session) (movie_id genre_id : Nat) (slug : String)
    (u : MovieUpdate) :
    (movieExists s.pending movie_id = false →
        get_movie_by_id movie_id s.pending = .error (movieNotFound movie_id)
      ∧ update_movie movie_id u s = (.error (movieNotFound movie_id), s)
      ∧ delete_movie movie_id s = (.error (movieNotFound movie_id), s)
      ∧ increment_view_count movie_id s = (.error (movieNotFound movie_id), s))
    ∧ (movieExists s.pending movie_id = true →
        (∃ m, get_movie_by_id movie_id s.pending = .ok m)
      ∧ (∃ s2, delete_movie movie_id s = (.ok (), s2))
      ∧ (∃ s2, increment_view_count movie_id s = (.ok (), s2))
      ∧ (∀ e s2, update_movie movie_id u s = (.error e, s2) → e.status_code = 400))
    ∧ (genreExists s.pending genre_id = false →
        get_genre_by_id genre_id s.pending = .error (genreNotFound genre_id)
      ∧ delete_genre genre_id s = (.error (genreNotFound genre_id), s))
    ∧ (genreExists s.pending genre_id = true →
        (∃ g, get_genre_by_id genre_id s.pending = .ok g)
      ∧ (∃ s2, delete_genre genre_id s = (.ok (), s2)))
    ∧ (genreSlugExists s.pending slug = false →
        get_genre_by_slug slug s.pending = .error (genreSlugNotFound slug))
    ∧ (genreSlugExists s.pending slug = true →
        ∃ g, get_genre_by_slug slug s.pending = .ok g) := by
  refine ⟨?_, ?_, ?_, ?_, ?_, ?_⟩
  · intro h
    have hf : s.pending.movies.find? (fun m => m.id == movie_id) = none :=
      isSome_false_eq_none h
    refine ⟨?_, ?_, ?_, ?_⟩
    · rw [get_movie_by_id_eq, hf]
    · rw [update_movie_eq, get_movie_by_id_eq, hf]
    · rw [delete_movie_eq, get_movie_by_id_eq, hf]
    · rw [increment_view_count_eq, get_movie_by_id_eq, hf]
  · intro h
    rcases hf : s.pending.movies.find? (fun m => m.id == movie_id) with _ | m
    · rw [movieExists, hf] at h; cases h
    · refine ⟨⟨m, by rw [get_movie_by_id_eq, hf]⟩,
        ⟨(⟨s.committed,
           { s.pending with
               movies := s.pending.movies.filter (fun x => !(x.id == movie_id)) }⟩ :
          Session).commit, by rw [delete_movie_eq, get_movie_by_id_eq, hf]⟩,
        ⟨(⟨s.committed,
           setMovie s.pending movie_id { m with view_count := m.view_count + 1 }⟩ :
          Session).commit, by rw [increment_view_count_eq, get_movie_by_id_eq, hf]⟩, ?_⟩
      intro e s2 heq
      have hrun : update_movie movie_id u s =
          (match u.genre_ids with
           | none => (.ok (applyFields m u),
               (⟨s.committed, setMovie s.pending movie_id (applyFields m u)⟩ : Session).commit)
           | some gids =>
             match addGenres movie_id gids
                 (clearAssoc movie_id
                   ⟨s.committed, setMovie s.pending movie_id (applyFields m u)⟩) with
             | (.ok _, s3) => (.ok (applyFields m u), s3.commit)
             | (.error e2, s3) => (.error e2, s3)) := by
        rw [update_movie_eq, get_movie_by_id_eq, hf]
      rw [hrun] at heq
      rcases hu : u.genre_ids with _ | gids
      · rw [hu] at heq; cases heq
      · rw [hu] at heq
        have heq2 : (match addGenres movie_id gids
              (clearAssoc movie_id
                ⟨s.committed, setMovie s.pending movie_id (applyFields m u)⟩) with
            | (Except.ok _, s3) =>
                ((Except.ok (applyFields m u) : Except HTTPErr Movie), s3.commit)
            | (Except.error e2, s3) => (Except.error e2, s3)) = (Except.error e, s2) := heq
        rcases addGenres_cases movie_id gids
            (clearAssoc movie_id
              ⟨s.committed, setMovie s.pending movie_id (applyFields m u)⟩) with
          ⟨mgs, hm⟩ | ⟨e2, hm, he2⟩
        · rw [hm] at heq2; cases heq2
        · rw [hm] at heq2
          injection heq2 with h1 _
          injection h1 with h1
          rw [← h1]; exact he2
  · intro h
    have hf : s.pending.genres.find? (fun g => g.id == genre_id) = none :=
      isSome_false_eq_none h
    exact ⟨by rw [get_genre_by_id_eq, hf], by rw [delete_genre_eq, get_genre_by_id_eq, hf]⟩
  · intro h
    rcases hf : s.pending.genres.find? (fun g => g.id == genre_id) with _ | g
    · rw [genreExists, hf] at h; cases h
    · exact ⟨⟨g, by rw [get_genre_by_id_eq, hf]⟩,
        ⟨(⟨s.committed,
           { s.pending with
               genres := s.pending.genres.filter (fun x => !(x.id == genre_id)) }⟩ :
          Session).commit, by rw [delete_genre_eq, get_genre_by_id_eq, hf]⟩⟩
  · intro h
    have hf : s.pending.genres.find? (fun g => g.slug == slug) = none :=
      isSome_false_eq_none h
    rw [get_genre_by_slug_eq, hf]
  · intro h
    rcases hf : s.pending.genres.find? (fun g => g.slug == slug) with _ | g
    · rw [genreSlugExists, hf] at h; cases h
    · exact ⟨g, by rw [get_genre_by_slug_eq, hf]⟩

theorem lookup_miss_404_hit_no_404_witness :
    get_movie_by_id 9 sW2.pending = .error (movieNotFound 9)
    ∧ delete_movie 9 sW2 = (.error (movieNotFound 9), sW2)
    ∧ (∃ m, get_movie_by_id 1 sW2.pending = .ok m)
    ∧ (∃ s2, delete_movie 1 sW2 = (.ok (), s2))
    ∧ get_genre_by_slug "nope" sW2.pending = .error (genreSlugNotFound "nope")
    ∧ (∃ g, get_genre_by_slug "action" sW2.pending = .ok g) :=
  ⟨((lookup_miss_404_hit_no_404 sW2 9 0 "" {}).1 (by decide)).1,
   ((lookup_miss_404_hit_no_404 sW2 9 0 "" {}).1 (by decide)).2.2.1,
   ((lookup_miss_404_hit_no_404 sW2 1 0 "" {}).2.1 (by decide)).1,
   ((lookup_miss_404_hit_no_404 sW2 1 0 "" {}).2.1 (by decide)).2.1,
   (lookup_miss_404_hit_no_404 sW2 0 0 "nope" {}).2.2.2.2.1 (by decide),
   (lookup_miss_404_hit_no_404 sW2 0 0 "action" {}).2.2.2.2.2 (by decide)⟩

/-! ## C10: created movies always start in status "pending" -/

/-- C10: whatever the creation payload contains — any caller-supplied
status included — a successful create returns a movie whose lifecycle
status is `"pending"`, and every movie row the call adds to the store has
status `"pending"`. -/
theorem create_movie_status_pending (s : Session) (md : MovieCreate) (m2 : Movie)
    (s2 : Session) (h : create_movie md s = (.ok m2, s2)) :
    m2.status = "pending"
    ∧ ∀ m ∈ s2.committed.movies, m ∈ s.pending.movies ∨ m.status = "pending" := by
  rw [create_movie_run] at h
  rcases hadd : (if md.genre_ids.isEmpty then ((.ok (), flushMovie md s) :
      Except HTTPErr Unit × Session)
    else addGenres (newMovieOf md s.pending).id md.genre_ids (flushMovie md s)) with ⟨r, sx⟩
  rw [hadd] at h
  cases r with
  | error e => cases h
  | ok r0 =>
    injection h with h1 h2
    injection h1 with h1
    have hmov : sx.pending.movies = s.pending.movies ++ [newMovieOf md s.pending] := by
      by_cases hie : md.genre_ids.isEmpty = true
      · rw [if_pos hie] at hadd
        injection hadd with _ hs
        rw [← hs]
        rfl
      · rw [if_neg hie] at hadd
        rcases addGenres_cases (newMovieOf md s.pending).id md.genre_ids (flushMovie md s) with
          ⟨mgs, hm⟩ | ⟨e2, hm, _⟩
        · rw [hm] at hadd
          injection hadd with _ hs
          rw [← hs]
          rfl
        · rw [hm] at hadd
          cases hadd
    constructor
    · rw [← h1]; rfl
    · intro m hm
      rw [← h2] at hm
      have hm2 : m ∈ sx.pending.movies := hm
      rw [hmov] at hm2
      rcases List.mem_append.mp hm2 with h3 | h3
      · exact Or.inl h3
      · exact Or.inr (by rw [List.mem_singleton.mp h3]; rfl)

def mdOK : MovieCreate := { mdW with genre_ids := [1] }

theorem create_movie_status_pending_witness :
    (newMovieOf mdOK dbW2).status = "pending"
    ∧ ∀ m ∈ ((create_movie mdOK sW2).2).committed.movies,
        m ∈ sW2.pending.movies ∨ m.status = "pending" :=
  create_movie_status_pending sW2 mdOK (newMovieOf mdOK dbW2) (create_movie mdOK sW2).2 rfl

end Catalog
